import Mathlib

/-!
Shallow embedding of the Verona C++ interop core: the MLIR generator
(src/mlir/generator.cc) and the Clang FFI interface (src/ffi/CXXInterface.h).
Pure functions of the source are translated to Lean functions; the emitted
IR and the Clang session are explicit state threaded through each operation;
fatal assertions are modelled as Option.none results.
-/

/-- MLIR types used by the generator: integer and floating-point types
(indexed by bit width), the index type, LLVM pointer types and LLVM struct
types (a struct is its list of field types). -/
inductive MLIRType where
  | int : Nat → MLIRType
  | float : Nat → MLIRType
  | index : MLIRType
  | ptr : MLIRType → MLIRType
  | struct : List MLIRType → MLIRType

mutual

/-- Boolean equality on MLIR types (struct types compare field lists). -/
def mlirBeq : MLIRType → MLIRType → Bool
  | MLIRType.int w, MLIRType.int v => w == v
  | MLIRType.float w, MLIRType.float v => w == v
  | MLIRType.index, MLIRType.index => true
  | MLIRType.ptr a, MLIRType.ptr b => mlirBeq a b
  | MLIRType.struct as, MLIRType.struct bs => mlirBeqList as bs
  | _, _ => false

/-- Boolean equality on lists of MLIR types. -/
def mlirBeqList : List MLIRType → List MLIRType → Bool
  | [], [] => true
  | a :: as, b :: bs => mlirBeq a b && mlirBeqList as bs
  | _, _ => false

end

mutual

/-- mlirBeq decides propositional equality. -/
def mlirBeq_iff : ∀ a b : MLIRType, mlirBeq a b = true ↔ a = b
  | MLIRType.int _, MLIRType.int _ => by simp [mlirBeq]
  | MLIRType.int _, MLIRType.float _ => by simp [mlirBeq]
  | MLIRType.int _, MLIRType.index => by simp [mlirBeq]
  | MLIRType.int _, MLIRType.ptr _ => by simp [mlirBeq]
  | MLIRType.int _, MLIRType.struct _ => by simp [mlirBeq]
  | MLIRType.float _, MLIRType.int _ => by simp [mlirBeq]
  | MLIRType.float _, MLIRType.float _ => by simp [mlirBeq]
  | MLIRType.float _, MLIRType.index => by simp [mlirBeq]
  | MLIRType.float _, MLIRType.ptr _ => by simp [mlirBeq]
  | MLIRType.float _, MLIRType.struct _ => by simp [mlirBeq]
  | MLIRType.index, MLIRType.int _ => by simp [mlirBeq]
  | MLIRType.index, MLIRType.float _ => by simp [mlirBeq]
  | MLIRType.index, MLIRType.index => by simp [mlirBeq]
  | MLIRType.index, MLIRType.ptr _ => by simp [mlirBeq]
  | MLIRType.index, MLIRType.struct _ => by simp [mlirBeq]
  | MLIRType.ptr _, MLIRType.int _ => by simp [mlirBeq]
  | MLIRType.ptr _, MLIRType.float _ => by simp [mlirBeq]
  | MLIRType.ptr _, MLIRType.index => by simp [mlirBeq]
  | MLIRType.ptr a, MLIRType.ptr b => by
      have ih := mlirBeq_iff a b
      simp [mlirBeq, ih]
  | MLIRType.ptr _, MLIRType.struct _ => by simp [mlirBeq]
  | MLIRType.struct _, MLIRType.int _ => by simp [mlirBeq]
  | MLIRType.struct _, MLIRType.float _ => by simp [mlirBeq]
  | MLIRType.struct _, MLIRType.index => by simp [mlirBeq]
  | MLIRType.struct _, MLIRType.ptr _ => by simp [mlirBeq]
  | MLIRType.struct as, MLIRType.struct bs => by
      have ih := mlirBeqList_iff as bs
      simp [mlirBeq, ih]

/-- mlirBeqList decides propositional equality of type lists. -/
def mlirBeqList_iff : ∀ as bs : List MLIRType, mlirBeqList as bs = true ↔ as = bs
  | [], [] => by simp [mlirBeqList]
  | [], _ :: _ => by simp [mlirBeqList]
  | _ :: _, [] => by simp [mlirBeqList]
  | a :: as, b :: bs => by
      have ih1 := mlirBeq_iff a b
      have ih2 := mlirBeqList_iff as bs
      simp [mlirBeqList, ih1, ih2]

end

instance : DecidableEq MLIRType := fun a b =>
  decidable_of_iff (mlirBeq a b = true) (mlirBeq_iff a b)

/-- An MLIR SSA value: an identity, its type, and whether its defining
operation is an LLVM GEPOp (used by isa checks in generateLoad/Store). -/
structure Value where
  id : Nat
  ty : MLIRType
  fromGEP : Bool
deriving DecidableEq

/-- Operations emitted by the generator (the subset the modelled functions
create): integer/floating casts, constants, GEP, load and store. -/
inductive Op where
  | signExtendI : Value → MLIRType → Value → Op
  | truncateI : Value → MLIRType → Value → Op
  | fpExt : Value → MLIRType → Value → Op
  | fpTrunc : Value → MLIRType → Value → Op
  | constantIndex : Int → Value → Op
  | constantInt : MLIRType → Int → Value → Op
  | constantFloat : MLIRType → Rat → Value → Op
  | gep : Value → List Value → Value → Op
  | load : Value → Value → Op
  | store : Value → Value → Op
deriving DecidableEq

/-- The builder state: the list of emitted operations (in emission order)
and a counter supplying fresh value identities. -/
structure GenState where
  ops : List Op
  nextId : Nat
deriving DecidableEq

/-- Create a fresh value of the given type. -/
def newValue (s : GenState) (ty : MLIRType) (fromGEP : Bool) : Value :=
  { id := s.nextId, ty := ty, fromGEP := fromGEP }

/-- Append one emitted operation, producing its fresh result value. -/
def emitOp (s : GenState) (ty : MLIRType) (fromGEP : Bool) (mk : Value → Op) :
    Value × GenState :=
  let v := newValue s ty fromGEP
  (v, { ops := s.ops ++ [mk v], nextId := s.nextId + 1 })

/-- builder.create of SignExtendIOp. -/
def createSignExtend (s : GenState) (ty : MLIRType) (val : Value) : Value × GenState :=
  emitOp s ty false (fun r => Op.signExtendI val ty r)

/-- builder.create of TruncateIOp. -/
def createTruncate (s : GenState) (ty : MLIRType) (val : Value) : Value × GenState :=
  emitOp s ty false (fun r => Op.truncateI val ty r)

/-- builder.create of FPExtOp. -/
def createFPExt (s : GenState) (ty : MLIRType) (val : Value) : Value × GenState :=
  emitOp s ty false (fun r => Op.fpExt val ty r)

/-- builder.create of FPTruncOp. -/
def createFPTrunc (s : GenState) (ty : MLIRType) (val : Value) : Value × GenState :=
  emitOp s ty false (fun r => Op.fpTrunc val ty r)

/-- mlir Type::getIntOrFloatBitWidth; defined only on integer and floating
types (MLIR asserts otherwise, modelled as none). -/
def getIntOrFloatBitWidth : MLIRType → Option Nat
  | MLIRType.int w => some w
  | MLIRType.float w => some w
  | _ => none

/-- MLIRGenerator::typeConversion (generator.cc lines 22-58): returns the
value unchanged when the bit widths agree; sign-extends or truncates
between integer types; fp-extends or fp-truncates between floating types;
any other combination trips the final assert (modelled as none). -/
def typeConversion (s : GenState) (val : Value) (ty : MLIRType) :
    Option (Value × GenState) :=
  match getIntOrFloatBitWidth val.ty, getIntOrFloatBitWidth ty with
  | some valSize, some tySize =>
    if valSize = tySize then some (val, s)
    else
      match val.ty, ty with
      | MLIRType.int _, MLIRType.int _ =>
        if valSize < tySize then some (createSignExtend s ty val)
        else some (createTruncate s ty val)
      | MLIRType.float _, MLIRType.float _ =>
        if valSize < tySize then some (createFPExt s ty val)
        else some (createFPTrunc s ty val)
      | _, _ => none
  | _, _ => none

/-- MLIRGenerator::typePromotion (generator.cc lines 60-80): identical types
are returned unchanged; otherwise the operand with the smaller
int-or-float bit width is converted to the other operand's type. -/
def typePromotion (s : GenState) (lhs rhs : Value) :
    Option ((Value × Value) × GenState) :=
  if lhs.ty = rhs.ty then some ((lhs, rhs), s)
  else
    match getIntOrFloatBitWidth lhs.ty, getIntOrFloatBitWidth rhs.ty with
    | some lhsSize, some rhsSize =>
      if lhsSize < rhsSize then
        (typeConversion s lhs rhs.ty).map (fun p => ((p.1, rhs), p.2))
      else
        (typeConversion s rhs lhs.ty).map (fun p => ((lhs, p.1), p.2))
    | _, _ => none

/-- True when the type is an IntegerType. -/
def isIntTy : MLIRType → Bool
  | MLIRType.int _ => true
  | _ => false

/-- True when the type is a FloatType. -/
def isFloatTy : MLIRType → Bool
  | MLIRType.float _ => true
  | _ => false

/-- One operand type is integer and the other floating. -/
def mixedIntFloat (a b : MLIRType) : Bool :=
  (isIntTy a && isFloatTy b) || (isFloatTy a && isIntTy b)

/-- Both operand types are integer, or both are floating. -/
def sameKindIntFloat (a b : MLIRType) : Bool :=
  (isIntTy a && isIntTy b) || (isFloatTy a && isFloatTy b)

/-- Modelled from the spec: utils.h helper isPointer — true when the value
has an LLVM pointer type. -/
def isPointer (v : Value) : Bool :=
  match v.ty with
  | MLIRType.ptr _ => true
  | _ => false

/-- Modelled from the spec: utils.h helper isStructPointer — true when the
value is a pointer to an LLVM struct (aggregate) type. -/
def isStructPointer (v : Value) : Bool :=
  match v.ty with
  | MLIRType.ptr (MLIRType.struct _) => true
  | _ => false

/-- Modelled from the spec: utils.h helper getElementType — the pointee type
of a pointer-typed value (none when the value is not a pointer). -/
def getElementType (v : Value) : Option MLIRType :=
  match v.ty with
  | MLIRType.ptr e => some e
  | _ => none

/-- Modelled from the spec: utils.h helper getFieldType — the declared type
of field number offset of a struct type; a field index outside the known
layout is undefined behaviour, modelled as none. -/
def getFieldType (fields : List MLIRType) (offset : Int) : Option MLIRType :=
  if h : 0 ≤ offset ∧ offset.toNat < fields.length then
    some (fields.get ⟨offset.toNat, h.2⟩)
  else none

/-- The std::variant of int and double taken by generateConstant. -/
inductive NumVal where
  | i : Int → NumVal
  | d : Rat → NumVal
deriving DecidableEq

/-- MLIRGenerator::generateConstant (generator.cc lines 241-263): an index
or integer type takes the int alternative, a floating type takes the
double alternative; any other type trips the assert (none), and reading
the wrong variant alternative throws (also none). -/
def generateConstant (s : GenState) (ty : MLIRType) (val : NumVal) :
    Option (Value × GenState) :=
  match ty, val with
  | MLIRType.index, NumVal.i n => some (emitOp s MLIRType.index false (fun r => Op.constantIndex n r))
  | MLIRType.index, NumVal.d _ => none
  | MLIRType.int w, NumVal.i n =>
      some (emitOp s (MLIRType.int w) false (fun r => Op.constantInt (MLIRType.int w) n r))
  | MLIRType.int _, NumVal.d _ => none
  | MLIRType.float w, NumVal.d x =>
      some (emitOp s (MLIRType.float w) false (fun r => Op.constantFloat (MLIRType.float w) x r))
  | MLIRType.float _, NumVal.i _ => none
  | _, _ => none

/-- MLIRGenerator::generateZero (generator.cc lines 265-271): constant 0.0
for floating types, constant 0 otherwise. -/
def generateZero (s : GenState) (ty : MLIRType) : Option (Value × GenState) :=
  match ty with
  | MLIRType.float w => generateConstant s (MLIRType.float w) (NumVal.d 0)
  | _ => generateConstant s ty (NumVal.i 0)

/-- MLIRGenerator::generateGEP (generator.cc lines 183-200): for a struct
pointer, a leading zero index is emitted and the index list has two
entries; otherwise one entry. The result type is the declared type of the
addressed field when the pointee is a struct, and defaults to the type of
addr itself otherwise. The result value is a GEPOp result. -/
def generateGEP (s : GenState) (addr : Value) (offset : Int) :
    Option (Value × GenState) :=
  match (if isStructPointer addr then
           (generateZero s (MLIRType.int 32)).map (fun p => ([p.1], p.2))
         else some ([], s)) with
  | none => none
  | some (offsetList, s1) =>
    match generateConstant s1 (MLIRType.int 32) (NumVal.i offset) with
    | none => none
    | some (len, s2) =>
      let index := offsetList ++ [len]
      let retTyOpt : Option MLIRType :=
        match getElementType addr with
        | some (MLIRType.struct fields) => getFieldType fields offset
        | _ => some addr.ty
      match retTyOpt with
      | none => none
      | some retTy => some (emitOp s2 retTy true (fun r => Op.gep addr index r))

/-- builder.create of LLVM::LoadOp: the result type is the pointee type of
the address (creating a load from a non-pointer is invalid, none). -/
def createLoad (s : GenState) (addr : Value) : Option (Value × GenState) :=
  match addr.ty with
  | MLIRType.ptr e => some (emitOp s e false (fun r => Op.load addr r))
  | _ => none

/-- builder.create of LLVM::StoreOp. -/
def createStore (s : GenState) (val : Value) (addr : Value) : GenState :=
  { ops := s.ops ++ [Op.store val addr], nextId := s.nextId }

/-- MLIRGenerator::generateLoad (generator.cc lines 202-209): when addr is
not a GEPOp result, the effective address is first computed by
generateGEP; when it is, a nonzero offset trips the assert (none) and
addr is used as-is. Then the load is emitted. -/
def generateLoad (s : GenState) (addr : Value) (offset : Int) :
    Option (Value × GenState) :=
  if addr.fromGEP = false then
    match generateGEP s addr offset with
    | none => none
    | some (addr2, s2) => createLoad s2 addr2
  else
    if offset = 0 then createLoad s addr else none

/-- MLIRGenerator::generateStore (generator.cc lines 231-239): same
addressing discipline as generateLoad, then the store is emitted. -/
def generateStore (s : GenState) (addr : Value) (val : Value) (offset : Int) :
    Option GenState :=
  if addr.fromGEP = false then
    match generateGEP s addr offset with
    | none => none
    | some (addr2, s2) => some (createStore s2 val addr2)
  else
    if offset = 0 then some (createStore s val addr) else none

/-- MLIRGenerator::generateAutoLoad (generator.cc lines 211-229): a
non-pointer value is returned unchanged; if the expected type is given and
is a pointer type, the address is returned unchanged; otherwise, if the
expected type is given it must equal the pointee type (assert, none), and
the load is performed via generateLoad. -/
def generateAutoLoad (s : GenState) (addr : Value) (ty : Option MLIRType)
    (offset : Int) : Option (Value × GenState) :=
  if isPointer addr = false then some (addr, s)
  else if (match ty with
           | some (MLIRType.ptr _) => true
           | _ => false) then some (addr, s)
  else
    match getElementType addr with
    | none => none
    | some elmTy =>
      match ty with
      | some t => if elmTy = t then generateLoad s addr offset else none
      | none => generateLoad s addr offset

/-- A sample builder state for concrete evaluations. -/
def gs0 : GenState := { ops := [], nextId := 0 }

/-- A sample 32-bit integer value. -/
def vI32 : Value := { id := 100, ty := MLIRType.int 32, fromGEP := false }

/-- A sample 32-bit floating value. -/
def vF32 : Value := { id := 101, ty := MLIRType.float 32, fromGEP := false }

/-- A sample 64-bit integer value. -/
def vI64 : Value := { id := 102, ty := MLIRType.int 64, fromGEP := false }

/-- Modelled from the spec: CXXType.h BuiltinTypeKinds — the builtin type
kinds mapped by typeForBuiltin (CXXInterface.h lines 209-245). -/
inductive BuiltinTypeKinds where
  | float | double | bool | schar | char | uchar | short | ushort
  | int | uint | long | ulong | longlong | ulonglong
deriving DecidableEq

/-- A model of a clang QualType as seen through this interface: the null
QualType, a record type, an enum type, a builtin type, or void. -/
inductive QualTypeM where
  | null : QualTypeM
  | record : Nat → QualTypeM
  | enumTy : Nat → QualTypeM
  | builtin : BuiltinTypeKinds → QualTypeM
  | voidTy : QualTypeM
deriving DecidableEq

/-- Modelled from the spec: CXXType.h Kind — the tagged variant of a type
handle: Invalid, Builtin, Class, TemplateClass, SpecializedTemplateClass
or Enum. -/
inductive CXXTypeKind where
  | Invalid | Builtin | Class | TemplateClass | SpecializedTemplateClass | Enum
deriving DecidableEq

/-- clang TypeInfo: bit width and alignment as returned by
ASTContext::getTypeInfo. -/
structure ClangTypeInfo where
  Width : Nat
  Align : Nat
deriving DecidableEq

/-- Modelled from the spec: CXXType.h CXXType — a kind tag, an opaque
reference into AST storage (a declaration identity), the builtin kind when
applicable, and a lazily cached size/alignment pair, initially unset
(Width = 0). -/
structure CXXType where
  kind : CXXTypeKind
  decl : Option Nat
  builtTypeKind : Option BuiltinTypeKinds
  sizeAndAlign : ClangTypeInfo
deriving DecidableEq

/-- Modelled from the spec: the CXXType default constructor — an Invalid
handle with no declaration and unset layout. -/
def CXXType.invalidTy : CXXType :=
  { kind := CXXTypeKind.Invalid, decl := none, builtTypeKind := none,
    sizeAndAlign := { Width := 0, Align := 0 } }

/-- Modelled from the spec: the CXXType constructor taking a
ClassTemplateSpecializationDecl — a SpecializedTemplateClass handle. -/
def CXXType.ofSpecialization (i : Nat) : CXXType :=
  { kind := CXXTypeKind.SpecializedTemplateClass, decl := some i,
    builtTypeKind := none, sizeAndAlign := { Width := 0, Align := 0 } }

/-- CXXInterface::typeForBuiltin (CXXInterface.h lines 209-245): maps each
builtin kind to the corresponding clang builtin QualType. -/
def typeForBuiltin (k : BuiltinTypeKinds) : QualTypeM :=
  QualTypeM.builtin k

/-- CXXInterface::getQualType (CXXInterface.h lines 382-401): Invalid and
TemplateClass handles yield the null QualType; class and specialized
handles yield the record type of their declaration; enums the enum type;
builtins go through typeForBuiltin. -/
def getQualType (ty : CXXType) : QualTypeM :=
  match ty.kind with
  | CXXTypeKind.Invalid => QualTypeM.null
  | CXXTypeKind.TemplateClass => QualTypeM.null
  | CXXTypeKind.SpecializedTemplateClass => QualTypeM.record (ty.decl.getD 0)
  | CXXTypeKind.Class => QualTypeM.record (ty.decl.getD 0)
  | CXXTypeKind.Enum => QualTypeM.enumTy (ty.decl.getD 0)
  | CXXTypeKind.Builtin =>
    match ty.builtTypeKind with
    | some k => typeForBuiltin k
    | none => QualTypeM.voidTy

/-- The host AST context's type-layout facility: an assignment of a width
and alignment to every non-null qualified type. -/
structure ASTContextM where
  typeInfoOf : QualTypeM → ClangTypeInfo

/-- clang ASTContext::getTypeInfo: defined for non-null qualified types;
querying the null QualType trips an assertion inside clang (none). -/
def getTypeInfo (ast : ASTContextM) (qt : QualTypeM) : Option ClangTypeInfo :=
  if qt = QualTypeM.null then none else some (ast.typeInfoOf qt)

/-- CXXInterface::getTypeSize (CXXInterface.h lines 369-378): asserts the
handle is not Invalid; when the cached width is unset (0) it queries the
layout of getQualType of the handle and caches it; returns the size in
bytes together with the updated handle. -/
def getTypeSize (ast : ASTContextM) (t : CXXType) : Option (Nat × CXXType) :=
  if t.kind = CXXTypeKind.Invalid then none
  else if t.sizeAndAlign.Width = 0 then
    match getTypeInfo ast (getQualType t) with
    | none => none
    | some info => some (info.Width / 8, { t with sizeAndAlign := info })
  else some (t.sizeAndAlign.Width / 8, t)

/-- A clang TemplateArgument as built by this interface: the null argument,
a type argument, or an integral literal argument of a given bit width and
value (CXXInterface.h lines 404-435). -/
inductive TemplateArgument where
  | null : TemplateArgument
  | typeArg : QualTypeM → TemplateArgument
  | exprArg : Nat → Nat → TemplateArgument
deriving DecidableEq

/-- clang TemplateSpecializationKind values. -/
inductive TemplateSpecializationKind where
  | Undeclared | ImplicitInstantiation | ExplicitSpecialization
  | ExplicitInstantiationDeclaration | ExplicitInstantiationDefinition
deriving DecidableEq

/-- A ClassTemplateSpecializationDecl in the host session's AST storage:
the class template it specializes, its canonicalized argument list, its
specialization kind, whether it has a definition, and whether its
declaration attributes have been instantiated. -/
structure SpecDecl where
  templateId : Nat
  args : List TemplateArgument
  specKind : TemplateSpecializationKind
  hasDef : Bool
  attrsInstantiated : Bool
deriving DecidableEq

/-- Apply a function to the entry at one position of a list, leaving every
other entry (and an out-of-range list) unchanged. -/
def modifyNth {α : Type} (f : α → α) : List α → Nat → List α
  | [], _ => []
  | a :: as, 0 => f a :: as
  | a :: as, n + 1 => a :: modifyNth f as n

/-- Modelled from the spec: ClassTemplateDecl::findSpecialization — look up
the specialization with the exact canonicalized argument list in the host
session's specialization cache, returning its index. -/
def findSpec (tid : Nat) (args : List TemplateArgument) :
    List SpecDecl → Option Nat
  | [] => none
  | d :: rest =>
    if d.templateId = tid ∧ d.args = args then some 0
    else (findSpec tid args rest).map (fun n => n + 1)

/-- Modelled from the spec: Sema::InstantiateAttrsForDecl — template
argument substitution carries the declaration attributes over to the
specialization. -/
def instantiateAttrsForDecl (d : SpecDecl) : SpecDecl :=
  { d with attrsInstantiated := true }

/-- Modelled from the spec: Sema::InstantiateClassTemplateSpecialization
with TSK_ExplicitInstantiationDefinition — instantiate a full definition
for the specialization, anchored at the end of the synthetic unit. -/
def instantiateSpecializationDef (d : SpecDecl) : SpecDecl :=
  { d with specKind := TemplateSpecializationKind.ExplicitInstantiationDefinition,
           hasDef := true }

/-- The fresh canonical specialization declaration created by
ClassTemplateSpecializationDecl::Create and added to the cache by
AddSpecialization: keyed by the template and the argument list, not yet
declared, with no definition and no instantiated attributes. -/
def newSpecDecl (tid : Nat) (args : List TemplateArgument) : SpecDecl :=
  { templateId := tid, args := args,
    specKind := TemplateSpecializationKind.Undeclared,
    hasDef := false, attrsInstantiated := false }

/-- CXXInterface::instantiateClassTemplate (CXXInterface.h lines 441-496):
a non-TemplateClass handle yields an Invalid handle at once; otherwise the
specialization cache is consulted, a missing specialization is created and
added, attributes are instantiated while the specialization kind is still
Undeclared, and a missing definition is instantiated at the end of the
file. The session state is the list of specialization declarations. -/
def instantiateClassTemplate (specs : List SpecDecl) (classTemplate : CXXType)
    (args : List TemplateArgument) : CXXType × List SpecDecl :=
  if classTemplate.kind ≠ CXXTypeKind.TemplateClass then (CXXType.invalidTy, specs)
  else
    let tid := classTemplate.decl.getD 0
    let found := findSpec tid args specs
    let declId := match found with
      | some i => i
      | none => specs.length
    let specs1 := match found with
      | some _ => specs
      | none => specs ++ [newSpecDecl tid args]
    let specs2 :=
      if (specs1.get? declId).map SpecDecl.specKind =
          some TemplateSpecializationKind.Undeclared then
        modifyNth instantiateAttrsForDecl specs1 declId
      else specs1
    if (specs2.get? declId).map SpecDecl.hasDef = some true then
      (CXXType.ofSpecialization declId, specs2)
    else
      (CXXType.ofSpecialization declId,
       modifyNth instantiateSpecializationDef specs2 declId)

/-- The kinds of AST declaration relevant to CXXInterface::getType: a
CXXRecordDecl (with or without a definition), a ClassTemplateDecl, or an
EnumDecl, each carrying its fully qualified name. -/
inductive ClangDecl where
  | recordDecl : String → Bool → ClangDecl
  | classTemplateDecl : String → ClangDecl
  | enumDecl : String → ClangDecl
deriving DecidableEq

/-- The cxxRecordDecl(hasName(qname)) matcher combined with the
getDefinition check of the match handler. -/
def declMatchesClass (qname : String) : ClangDecl → Bool
  | ClangDecl.recordDecl n hasDefn => n = qname && hasDefn
  | _ => false

/-- The classTemplateDecl(hasName(qname)) matcher. -/
def declMatchesTemplate (qname : String) : ClangDecl → Bool
  | ClangDecl.classTemplateDecl n => n = qname
  | _ => false

/-- The enumDecl(hasName(qname)) matcher. -/
def declMatchesEnum (qname : String) : ClangDecl → Bool
  | ClangDecl.enumDecl n => n = qname
  | _ => false

/-- The later of two optional matches: each match handler overwrites its
found pointer, so the last matching declaration wins in each category. -/
def lastWins (later earlier : Option Nat) : Option Nat :=
  match later with
  | some x => some x
  | none => earlier

/-- One MatchFinder traversal of the AST, computing the final
(foundTemplateClass, foundClass, foundEnum) pointers; the second argument
is the index of the first declaration in the remaining list. -/
def collectMatches (qname : String) : List ClangDecl → Nat →
    Option Nat × Option Nat × Option Nat
  | [], _ => (none, none, none)
  | d :: rest, i =>
    let r := collectMatches qname rest (i + 1)
    (lastWins r.1 (if declMatchesTemplate qname d then some i else none),
     lastWins r.2.1 (if declMatchesClass qname d then some i else none),
     lastWins r.2.2 (if declMatchesEnum qname d then some i else none))

/-- CXXInterface::getType (CXXInterface.h lines 312-366): prepend "::" to
the name, run the three matchers over the AST, then prefer a class
template match, then a concrete class match, then an enum match; an empty
(Invalid) handle is returned when nothing matches. -/
def getType (ast : List ClangDecl) (name : String) : CXXType :=
  let qname := "::" ++ name
  let found := collectMatches qname ast 0
  match found.1 with
  | some i => { kind := CXXTypeKind.TemplateClass, decl := some i,
                builtTypeKind := none, sizeAndAlign := { Width := 0, Align := 0 } }
  | none =>
    match found.2.1 with
    | some i => { kind := CXXTypeKind.Class, decl := some i,
                  builtTypeKind := none, sizeAndAlign := { Width := 0, Align := 0 } }
    | none =>
      match found.2.2 with
      | some i => { kind := CXXTypeKind.Enum, decl := some i,
                    builtTypeKind := none, sizeAndAlign := { Width := 0, Align := 0 } }
      | none => CXXType.invalidTy

/-- A synthesized FunctionDecl: its name, the parameter count of its
function type (getNumParams), its attached parameter info (none until
setParams attaches a list), and its body. -/
structure FunctionDeclM where
  name : String
  numParams : Nat
  params : Option (List Nat)
  body : Option Nat
deriving DecidableEq

/-- A synthesized ParmVarDecl: its name and its qualified type. -/
structure ParmVarDeclM where
  name : String
  ty : QualTypeM
deriving DecidableEq

/-- The AST storage arena for synthesized declarations: functions and
parameter declarations, identified by their index; append-only. -/
structure ASTArena where
  funcs : List FunctionDeclM
  parms : List ParmVarDeclM
deriving DecidableEq

/-- clang FunctionDecl::setParams (external collaborator, modelled from
its contract): asserts that no parameter info has been attached yet and
that the new list's size equals the parameter count of the function's
type; an empty list leaves the parameter info unattached. -/
def setParams (f : FunctionDeclM) (ps : List Nat) : Option FunctionDeclM :=
  if f.params.isSome then none
  else if ps.length ≠ f.numParams then none
  else if ps.isEmpty then some f
  else some { f with params := some ps }

/-- CXXInterface::createFunctionArgument (CXXInterface.h lines 550-567):
creates a ParmVarDecl of the given name and qualified type, then calls
func->setParams({arg}) — attaching the one-element list containing only
the new parameter as the function's entire parameter list; the setParams
assertions make a second call on the same function, or a call on a
function whose prototype arity is not one, fatal. -/
def createFunctionArgument (a : ASTArena) (name : String) (ty : CXXType)
    (funcId : Nat) : Option (Nat × ASTArena) :=
  let parmId := a.parms.length
  let parm : ParmVarDeclM := { name := name, ty := getQualType ty }
  match a.funcs.get? funcId with
  | none => none
  | some f =>
    match setParams f [parmId] with
    | none => none
    | some f2 =>
      some (parmId, { funcs := a.funcs.set funcId f2,
                      parms := a.parms ++ [parm] })

/-- A sample AST context whose layout facility gives every type 32 bits. -/
def astC : ASTContextM := { typeInfoOf := fun _ => { Width := 32, Align := 32 } }

/-- A sample TemplateClass handle referring to template declaration 0. -/
def tTemplate : CXXType :=
  { kind := CXXTypeKind.TemplateClass, decl := some 0,
    builtTypeKind := none, sizeAndAlign := { Width := 0, Align := 0 } }

/-- A sample Class handle referring to declaration 3. -/
def tClass : CXXType :=
  { kind := CXXTypeKind.Class, decl := some 3,
    builtTypeKind := none, sizeAndAlign := { Width := 0, Align := 0 } }

/-- A sample builtin Int handle. -/
def tInt : CXXType :=
  { kind := CXXTypeKind.Builtin, decl := none,
    builtTypeKind := some BuiltinTypeKinds.int,
    sizeAndAlign := { Width := 0, Align := 0 } }

/-- A sample argument list: the integral literal 5 at width 32. -/
def args0 : List TemplateArgument := [TemplateArgument.exprArg 32 5]

/-- A sample function declaration: prototype arity one, no parameter info
attached yet. -/
def fDecl0 : FunctionDeclM :=
  { name := "f", numParams := 1, params := none, body := none }

/-- A sample arena holding that one function and no parameters. -/
def arena0 : ASTArena := { funcs := [fDecl0], parms := [] }

/-- The arena after one successful createFunctionArgument call on the
sample function: parameter 0 created and attached. -/
def arena1 : ASTArena :=
  { funcs := [{ name := "f", numParams := 1, params := some [0], body := none }],
    parms := [{ name := "x", ty := QualTypeM.builtin BuiltinTypeKinds.int }] }

/-- A sample pointer to a struct with two int fields (Scenario A). -/
def vPtrStruct : Value :=
  { id := 103,
    ty := MLIRType.ptr (MLIRType.struct [MLIRType.int 32, MLIRType.int 32]),
    fromGEP := false }

/-- A sample pointer to a 32-bit integer. -/
def vPtrI32 : Value :=
  { id := 104, ty := MLIRType.ptr (MLIRType.int 32), fromGEP := false }

/-- A sample address value that is the result of a prior GEP. -/
def vGEPRes : Value :=
  { id := 105, ty := MLIRType.ptr (MLIRType.int 32), fromGEP := true }

theorem sameKind_cases (a b : MLIRType) (h : sameKindIntFloat a b = true) :
    (∃ x y, a = MLIRType.int x ∧ b = MLIRType.int y) ∨
    (∃ x y, a = MLIRType.float x ∧ b = MLIRType.float y) := by
  cases a <;> cases b <;> first
    | exact Or.inl ⟨_, _, rfl, rfl⟩
    | exact Or.inr ⟨_, _, rfl, rfl⟩
    | simp_all [sameKindIntFloat, isIntTy, isFloatTy]

theorem mixed_cases (a b : MLIRType) (h : mixedIntFloat a b = true) :
    (∃ x y, a = MLIRType.int x ∧ b = MLIRType.float y) ∨
    (∃ x y, a = MLIRType.float x ∧ b = MLIRType.int y) := by
  cases a <;> cases b <;> first
    | exact Or.inl ⟨_, _, rfl, rfl⟩
    | exact Or.inr ⟨_, _, rfl, rfl⟩
    | simp_all [mixedIntFloat, isIntTy, isFloatTy]

/-- Claim C2 counterexample: converting a 32-bit integer value to the
32-bit floating type is not a fatal contract violation — the equal-width
shortcut returns the value unchanged, with a type different from the
target type. -/
theorem typeConversion_mixed_equal_width_cex :
    typeConversion gs0 vI32 (MLIRType.float 32) = some (vI32, gs0) ∧
    vI32.ty ≠ MLIRType.float 32 := by
  constructor
  · rfl
  · decide

/-- Claim C2 (amended): for a value of integer type and a floating target
type (and vice versa), typeConversion is a fatal contract violation
whenever the two bit widths differ; when the widths are equal the value is
returned unchanged, so its type may differ from the target type. -/
theorem typeConversion_mixed_kind (s : GenState) (val : Value) (ty : MLIRType)
    (h : mixedIntFloat val.ty ty = true) :
    (getIntOrFloatBitWidth val.ty ≠ getIntOrFloatBitWidth ty →
       typeConversion s val ty = none) ∧
    (getIntOrFloatBitWidth val.ty = getIntOrFloatBitWidth ty →
       typeConversion s val ty = some (val, s)) := by
  rcases mixed_cases _ _ h with ⟨x, y, hv, ht⟩ | ⟨x, y, hv, ht⟩ <;>
    constructor <;> intro hw <;>
      simp [getIntOrFloatBitWidth, hv, ht] at hw <;>
      simp [typeConversion, getIntOrFloatBitWidth, hv, ht, hw]

/-- Claim C2 witness: the amended statement instantiated at a 32-bit
integer value and the 64-bit floating target type. -/
theorem typeConversion_mixed_kind_witness :
    mixedIntFloat vI32.ty (MLIRType.float 64) = true ∧
    ((getIntOrFloatBitWidth vI32.ty ≠ getIntOrFloatBitWidth (MLIRType.float 64) →
        typeConversion gs0 vI32 (MLIRType.float 64) = none) ∧
     (getIntOrFloatBitWidth vI32.ty = getIntOrFloatBitWidth (MLIRType.float 64) →
        typeConversion gs0 vI32 (MLIRType.float 64) = some (vI32, gs0))) :=
  ⟨by decide, typeConversion_mixed_kind gs0 vI32 (MLIRType.float 64) (by decide)⟩

/-- Claim C1 counterexample: on a 32-bit integer operand and a 32-bit
floating operand, typePromotion returns a pair whose two types still
differ — the promoted pair does not share one type. -/
theorem typePromotion_mixed_equal_width_cex :
    typePromotion gs0 vI32 vF32 = some ((vI32, vF32), gs0) ∧
    vI32.ty ≠ vF32.ty := by
  constructor
  · rfl
  · decide

/-- Claim C1 (amended): for operands whose types are both integer or both
floating, typePromotion returns a pair of values sharing exactly one type,
and when the operand types are already equal the pair and the builder
state are returned unchanged, with no conversion operation inserted. -/
theorem typePromotion_same_kind_shares_type (s : GenState) (lhs rhs : Value)
    (h : sameKindIntFloat lhs.ty rhs.ty = true) :
    ∃ p, typePromotion s lhs rhs = some p ∧ p.1.1.ty = p.1.2.ty ∧
      (lhs.ty = rhs.ty → p = ((lhs, rhs), s)) := by
  by_cases heq : lhs.ty = rhs.ty
  · exact ⟨((lhs, rhs), s), by simp [typePromotion, heq], by simp [heq], fun _ => rfl⟩
  · rcases sameKind_cases _ _ h with ⟨x, y, hl, hr⟩ | ⟨x, y, hl, hr⟩
    · have hxy : x ≠ y := by
        intro hc
        rw [hl, hr, hc] at heq
        exact heq rfl
      by_cases hlt : x < y
      · refine ⟨(((createSignExtend s rhs.ty lhs).1, rhs),
                 (createSignExtend s rhs.ty lhs).2), ?_, ?_, ?_⟩
        · simp [typePromotion, heq, getIntOrFloatBitWidth, hl, hr, hlt,
                typeConversion, hxy]
        · simp [createSignExtend, emitOp, newValue, hr]
        · intro hc; exact absurd hc heq
      · refine ⟨((lhs, (createSignExtend s lhs.ty rhs).1),
                 (createSignExtend s lhs.ty rhs).2), ?_, ?_, ?_⟩
        · have hyx : y < x := by omega
          simp [typePromotion, heq, getIntOrFloatBitWidth, hl, hr, hlt,
                typeConversion, hxy, Ne.symm hxy, hyx]
        · simp [createSignExtend, emitOp, newValue, hl]
        · intro hc; exact absurd hc heq
    · have hxy : x ≠ y := by
        intro hc
        rw [hl, hr, hc] at heq
        exact heq rfl
      by_cases hlt : x < y
      · refine ⟨(((createFPExt s rhs.ty lhs).1, rhs),
                 (createFPExt s rhs.ty lhs).2), ?_, ?_, ?_⟩
        · simp [typePromotion, heq, getIntOrFloatBitWidth, hl, hr, hlt,
                typeConversion, hxy]
        · simp [createFPExt, emitOp, newValue, hr]
        · intro hc; exact absurd hc heq
      · refine ⟨((lhs, (createFPExt s lhs.ty rhs).1),
                 (createFPExt s lhs.ty rhs).2), ?_, ?_, ?_⟩
        · have hyx : y < x := by omega
          simp [typePromotion, heq, getIntOrFloatBitWidth, hl, hr, hlt,
                typeConversion, hxy, Ne.symm hxy, hyx]
        · simp [createFPExt, emitOp, newValue, hl]
        · intro hc; exact absurd hc heq

/-- Claim C1 witness: the amended statement instantiated at a 32-bit and a
64-bit integer value. -/
theorem typePromotion_same_kind_witness :
    sameKindIntFloat vI32.ty vI64.ty = true ∧
    (∃ p, typePromotion gs0 vI32 vI64 = some p ∧ p.1.1.ty = p.1.2.ty ∧
      (vI32.ty = vI64.ty → p = ((vI32, vI64), gs0))) :=
  ⟨by decide, typePromotion_same_kind_shares_type gs0 vI32 vI64 (by decide)⟩

/-- Claim C7: generateGEP on a pointer to a struct with a valid field index
emits a two-index address computation (leading zero index, then the field
index) whose result type is the declared type of the addressed field; on a
pointer to a non-struct type it emits a single-index address computation
whose result type defaults to the type of the base pointer. -/
theorem generateGEP_addressing (s : GenState) (addr : Value) (offset : Int) :
    (∀ fields, addr.ty = MLIRType.ptr (MLIRType.struct fields) →
       0 ≤ offset → offset.toNat < fields.length →
       ∃ res s₂, generateGEP s addr offset = some (res, s₂) ∧
         fields.get? offset.toNat = some res.ty ∧ res.fromGEP = true ∧
         ∃ z l, s₂.ops = s.ops ++
           [Op.constantInt (MLIRType.int 32) 0 z,
            Op.constantInt (MLIRType.int 32) offset l,
            Op.gep addr [z, l] res]) ∧
    (∀ pointee, addr.ty = MLIRType.ptr pointee →
       (∀ fields, pointee ≠ MLIRType.struct fields) →
       ∃ res s₂, generateGEP s addr offset = some (res, s₂) ∧
         res.ty = addr.ty ∧ res.fromGEP = true ∧
         ∃ l, s₂.ops = s.ops ++
           [Op.constantInt (MLIRType.int 32) offset l,
            Op.gep addr [l] res]) := by
  constructor
  · intro fields h hoff hlen
    have hfield : getFieldType fields offset =
        some (fields.get ⟨offset.toNat, hlen⟩) := by
      unfold getFieldType
      exact dif_pos ⟨hoff, hlen⟩
    simp only [generateGEP, isStructPointer, h, getElementType, generateZero,
               generateConstant, emitOp, newValue, hfield, Option.map_some']
    refine ⟨_, _, rfl, List.get?_eq_get hlen, rfl,
            ⟨s.nextId, MLIRType.int 32, false⟩,
            ⟨s.nextId + 1, MLIRType.int 32, false⟩, ?_⟩
    simp
  · intro pointee h hns
    cases pointee
    case struct fs => exact absurd rfl (hns fs)
    all_goals
      simp only [generateGEP, isStructPointer, h, getElementType,
                 generateConstant, emitOp, newValue]
      refine ⟨_, _, rfl, rfl, rfl, ⟨s.nextId, MLIRType.int 32, false⟩, ?_⟩
      simp

/-- Claim C7 witness: generateGEP on a pointer to a two-int-field struct
with offset 1 yields a field address typed as the second field's int type,
via the two-index form. -/
theorem generateGEP_addressing_witness :
    vPtrStruct.ty =
      MLIRType.ptr (MLIRType.struct [MLIRType.int 32, MLIRType.int 32]) ∧
    (0 : Int) ≤ 1 ∧
    (1 : Int).toNat < [MLIRType.int 32, MLIRType.int 32].length ∧
    (∃ res s₂, generateGEP gs0 vPtrStruct 1 = some (res, s₂) ∧
       [MLIRType.int 32, MLIRType.int 32].get? (1 : Int).toNat = some res.ty ∧
       res.fromGEP = true ∧
       ∃ z l, s₂.ops = gs0.ops ++
         [Op.constantInt (MLIRType.int 32) 0 z,
          Op.constantInt (MLIRType.int 32) 1 l,
          Op.gep vPtrStruct [z, l] res]) :=
  ⟨rfl, by decide, by decide,
   (generateGEP_addressing gs0 vPtrStruct 1).1
     [MLIRType.int 32, MLIRType.int 32] rfl (by decide) (by decide)⟩

/-- Claim C8: generateLoad and generateStore compute the effective address
via generateGEP when the address is not already a GEP result; when it is,
a nonzero offset is a fatal contract violation, and with offset zero the
address is reused as-is for the memory operation. -/
theorem generateLoadStore_addressing (s : GenState) (addr val : Value)
    (offset : Int) :
    (addr.fromGEP = true → offset ≠ 0 →
       generateLoad s addr offset = none ∧
       generateStore s addr val offset = none) ∧
    (addr.fromGEP = true → offset = 0 →
       generateLoad s addr offset = createLoad s addr ∧
       generateStore s addr val offset = some (createStore s val addr)) ∧
    (addr.fromGEP = false →
       generateLoad s addr offset =
         (generateGEP s addr offset).bind (fun p => createLoad p.2 p.1) ∧
       generateStore s addr val offset =
         (generateGEP s addr offset).map (fun p => createStore p.2 val p.1)) := by
  refine ⟨?_, ?_, ?_⟩
  · intro h1 h2
    constructor <;> simp [generateLoad, generateStore, h1, h2]
  · intro h1 h2
    constructor <;> simp [generateLoad, generateStore, h1, h2]
  · intro h1
    constructor <;>
      cases hg : generateGEP s addr offset <;>
        simp [generateLoad, generateStore, h1, hg]

/-- Claim C8 witness: on an address that is already a GEP result, offset 1
is rejected by both generateLoad and generateStore. -/
theorem generateLoadStore_addressing_witness :
    vGEPRes.fromGEP = true ∧ (1 : Int) ≠ 0 ∧
    (generateLoad gs0 vGEPRes 1 = none ∧
     generateStore gs0 vGEPRes vI32 1 = none) :=
  ⟨rfl, by decide,
   (generateLoadStore_addressing gs0 vGEPRes vI32 1).1 rfl (by decide)⟩

/-- Claim C9: generateAutoLoad returns the value unchanged, emitting
nothing, whenever it is not pointer-typed; and returns it unchanged
regardless of the offset whenever the expected type is a pointer type. -/
theorem generateAutoLoad_identity (s : GenState) (addr : Value)
    (ty : Option MLIRType) (offset : Int) :
    (isPointer addr = false → generateAutoLoad s addr ty offset = some (addr, s)) ∧
    (∀ e, ty = some (MLIRType.ptr e) →
       generateAutoLoad s addr ty offset = some (addr, s)) := by
  constructor
  · intro h
    simp [generateAutoLoad, h]
  · intro e he
    by_cases hp : isPointer addr = false
    · simp [generateAutoLoad, hp]
    · simp only [Bool.not_eq_false] at hp
      simp [generateAutoLoad, hp, he]

/-- Claim C9 witness: a non-pointer value passes through unchanged, and a
pointer value with an expected pointer type passes through unchanged even
with a nonzero offset. -/
theorem generateAutoLoad_identity_witness :
    (isPointer vI32 = false ∧
     generateAutoLoad gs0 vI32 none 0 = some (vI32, gs0)) ∧
    ((some (MLIRType.ptr (MLIRType.int 32)) : Option MLIRType) =
        some (MLIRType.ptr (MLIRType.int 32)) ∧
     generateAutoLoad gs0 vPtrI32 (some (MLIRType.ptr (MLIRType.int 32))) 7 =
       some (vPtrI32, gs0)) :=
  ⟨⟨rfl, (generateAutoLoad_identity gs0 vI32 none 0).1 rfl⟩,
   ⟨rfl, (generateAutoLoad_identity gs0 vPtrI32
            (some (MLIRType.ptr (MLIRType.int 32))) 7).2 (MLIRType.int 32) rfl⟩⟩

/-- Claim C5: querying getTypeSize on a TemplateClass handle (whose cached
width is still unset, as at construction) is a fatal contract violation —
getQualType yields the null QualType and the layout query asserts — and
never returns a size. -/
theorem getTypeSize_templateClass_fatal (ast : ASTContextM) (t : CXXType)
    (hk : t.kind = CXXTypeKind.TemplateClass) (hw : t.sizeAndAlign.Width = 0) :
    getTypeSize ast t = none := by
  simp [getTypeSize, hk, hw, getQualType, getTypeInfo]

/-- Claim C5 witness: the sample TemplateClass handle has no cached width
and its size query fails. -/
theorem getTypeSize_templateClass_fatal_witness :
    tTemplate.kind = CXXTypeKind.TemplateClass ∧
    tTemplate.sizeAndAlign.Width = 0 ∧
    getTypeSize astC tTemplate = none :=
  ⟨rfl, rfl, getTypeSize_templateClass_fatal astC tTemplate rfl rfl⟩

/-- Claim C10: instantiateClassTemplate on a handle whose kind is not
TemplateClass returns the Invalid handle at once, with the session state
untouched. -/
theorem instantiateClassTemplate_non_template (specs : List SpecDecl)
    (ct : CXXType) (args : List TemplateArgument)
    (hk : ct.kind ≠ CXXTypeKind.TemplateClass) :
    instantiateClassTemplate specs ct args = (CXXType.invalidTy, specs) := by
  simp [instantiateClassTemplate, hk]

/-- Claim C10 witness: a Class handle is rejected with an Invalid result
and an unchanged (empty) session. -/
theorem instantiateClassTemplate_non_template_witness :
    tClass.kind ≠ CXXTypeKind.TemplateClass ∧
    instantiateClassTemplate [] tClass args0 = (CXXType.invalidTy, []) :=
  ⟨by decide, instantiateClassTemplate_non_template [] tClass args0 (by decide)⟩

theorem modifyNth_get?_self {α : Type} (f : α → α) (l : List α) (n : Nat) :
    (modifyNth f l n).get? n = (l.get? n).map f := by
  induction l generalizing n with
  | nil => simp [modifyNth]
  | cons a as ih =>
    cases n with
    | zero => simp [modifyNth]
    | succ m => simpa [modifyNth] using ih m

/-- Claim C6 counterexample: the first createFunctionArgument call on the
sample one-parameter function succeeds and attaches exactly parameter 0;
the second call on the same function is a fatal assertion inside
FunctionDecl::setParams (parameter info already attached), so after two
calls the parameter list never contains both created parameters in call
order. -/
theorem createFunctionArgument_append_cex :
    createFunctionArgument arena0 "x" tInt 0 = some (0, arena1) ∧
    createFunctionArgument arena1 "y" tInt 0 = none := by
  exact ⟨rfl, rfl⟩

/-- Claim C6 (amended): createFunctionArgument creates one parameter and
installs the one-element list containing only it as the function's entire
parameter list via setParams; the call succeeds exactly when the function
has no parameter info attached yet and its prototype has exactly one
parameter, and then the list holds only the new parameter; a call on a
function that already has parameter info, or whose prototype arity is not
one, is a fatal assertion — the parameter list never accumulates n
parameters over n calls. -/
theorem createFunctionArgument_sets_single (a : ASTArena) (nm : String)
    (ty : CXXType) (fid : Nat) (f : FunctionDeclM)
    (hf : a.funcs.get? fid = some f) :
    (f.params = none → f.numParams = 1 →
       createFunctionArgument a nm ty fid =
         some (a.parms.length,
           { funcs := a.funcs.set fid { f with params := some [a.parms.length] },
             parms := a.parms ++ [{ name := nm, ty := getQualType ty }] })) ∧
    (f.params ≠ none → createFunctionArgument a nm ty fid = none) ∧
    (f.numParams ≠ 1 → createFunctionArgument a nm ty fid = none) := by
  have hf2 : a.funcs[fid]? = some f := by
    rw [← List.get?_eq_getElem?]
    exact hf
  refine ⟨?_, ?_, ?_⟩
  · intro hp hn
    simp [createFunctionArgument, hf2, setParams, hp, hn]
  · intro hp
    have hps : f.params.isSome = true := by
      cases hpc : f.params with
      | none => exact absurd hpc hp
      | some ps => rfl
    simp [createFunctionArgument, hf2, setParams, hps]
  · intro hn
    cases hpc : f.params with
    | some ps =>
      have hps : f.params.isSome = true := by rw [hpc]; rfl
      simp [createFunctionArgument, hf2, setParams, hps]
    | none =>
      simp [createFunctionArgument, hf2, setParams, hpc, Ne.symm hn]

/-- Claim C6 witness: the amended statement instantiated at the sample
arena's only function, which has arity one and no attached parameter
info; the call succeeds and attaches exactly the new parameter. -/
theorem createFunctionArgument_sets_single_witness :
    arena0.funcs.get? 0 = some fDecl0 ∧
    fDecl0.params = none ∧ fDecl0.numParams = 1 ∧
    createFunctionArgument arena0 "x" tInt 0 = some (0, arena1) :=
  ⟨rfl, rfl, rfl,
   (createFunctionArgument_sets_single arena0 "x" tInt 0 fDecl0 rfl).1 rfl rfl⟩

theorem lastWins_isSome (a b : Option Nat) :
    (lastWins a b).isSome = (a.isSome || b.isSome) := by
  cases a <;> cases b <;> simp [lastWins]

theorem collectMatches_fst_isSome (q : String) (l : List ClangDecl) (i : Nat) :
    (collectMatches q l i).1.isSome = l.any (declMatchesTemplate q) := by
  induction l generalizing i with
  | nil => simp [collectMatches]
  | cons d rest ih =>
    simp only [collectMatches, lastWins_isSome, ih, List.any_cons]
    cases declMatchesTemplate q d <;> simp [Bool.or_comm]

theorem collectMatches_snd_fst_isSome (q : String) (l : List ClangDecl) (i : Nat) :
    (collectMatches q l i).2.1.isSome = l.any (declMatchesClass q) := by
  induction l generalizing i with
  | nil => simp [collectMatches]
  | cons d rest ih =>
    simp only [collectMatches, lastWins_isSome, ih, List.any_cons]
    cases declMatchesClass q d <;> simp [Bool.or_comm]

theorem collectMatches_snd_snd_isSome (q : String) (l : List ClangDecl) (i : Nat) :
    (collectMatches q l i).2.2.isSome = l.any (declMatchesEnum q) := by
  induction l generalizing i with
  | nil => simp [collectMatches]
  | cons d rest ih =>
    simp only [collectMatches, lastWins_isSome, ih, List.any_cons]
    cases declMatchesEnum q d <;> simp [Bool.or_comm]

/-- Claim C4: getType evaluates its three pattern categories in fixed
priority order — class-template match, then concrete class match, then
enum match — with the winning category determined only by which categories
have a matching declaration anywhere in the AST; when none match, the
returned handle is Invalid. -/
theorem getType_priority (ast : List ClangDecl) (name : String) :
    (getType ast name).kind =
      (if ast.any (declMatchesTemplate ("::" ++ name)) then
         CXXTypeKind.TemplateClass
       else if ast.any (declMatchesClass ("::" ++ name)) then
         CXXTypeKind.Class
       else if ast.any (declMatchesEnum ("::" ++ name)) then
         CXXTypeKind.Enum
       else CXXTypeKind.Invalid) := by
  have h1 := collectMatches_fst_isSome ("::" ++ name) ast 0
  have h2 := collectMatches_snd_fst_isSome ("::" ++ name) ast 0
  have h3 := collectMatches_snd_snd_isSome ("::" ++ name) ast 0
  simp only [getType]
  cases hf1 : (collectMatches ("::" ++ name) ast 0).1 with
  | some i =>
    rw [hf1] at h1
    simp [← h1]
  | none =>
    rw [hf1] at h1
    cases hf2 : (collectMatches ("::" ++ name) ast 0).2.1 with
    | some i =>
      rw [hf2] at h2
      simp [← h1, ← h2]
    | none =>
      rw [hf2] at h2
      cases hf3 : (collectMatches ("::" ++ name) ast 0).2.2 with
      | some i =>
        rw [hf3] at h3
        simp [← h1, ← h2, ← h3]
      | none =>
        rw [hf3] at h3
        simp [← h1, ← h2, ← h3, CXXType.invalidTy]

theorem get?_append_len {α : Type} (l : List α) (d : α) :
    (l ++ [d]).get? l.length = some d := by
  induction l with
  | nil => rfl
  | cons a as ih => exact ih

theorem modifyNth_fix {α : Type} (f : α → α) (l : List α) (n : Nat)
    (h : ∀ a, l.get? n = some a → f a = a) : modifyNth f l n = l := by
  induction l generalizing n with
  | nil => simp [modifyNth]
  | cons a as ih =>
    cases n with
    | zero => simp [modifyNth, h a rfl]
    | succ m =>
      simp only [modifyNth, List.cons.injEq, true_and]
      exact ih m (fun b hb => h b hb)

theorem findSpec_modifyNth (tid : Nat) (args : List TemplateArgument)
    (f : SpecDecl → SpecDecl)
    (hf : ∀ d, (f d).templateId = d.templateId ∧ (f d).args = d.args)
    (l : List SpecDecl) (n : Nat) :
    findSpec tid args (modifyNth f l n) = findSpec tid args l := by
  induction l generalizing n with
  | nil => simp [modifyNth]
  | cons d rest ih =>
    cases n with
    | zero =>
      simp only [modifyNth, findSpec]
      rw [(hf d).1, (hf d).2]
    | succ m =>
      simp only [modifyNth, findSpec]
      rw [ih m]

theorem findSpec_append_of_none (tid : Nat) (args : List TemplateArgument)
    (l : List SpecDecl) (d : SpecDecl) (h : findSpec tid args l = none)
    (hd : d.templateId = tid) (ha : d.args = args) :
    findSpec tid args (l ++ [d]) = some l.length := by
  induction l with
  | nil => simp [findSpec, hd, ha]
  | cons e rest ih =>
    simp only [findSpec] at h
    by_cases hc : e.templateId = tid ∧ e.args = args
    · rw [if_pos hc] at h
      cases h
    · rw [if_neg hc] at h
      have hr : findSpec tid args rest = none := by
        cases hx : findSpec tid args rest with
        | none => rfl
        | some j => rw [hx] at h; cases h
      simp only [List.cons_append, findSpec, if_neg hc, List.append_eq, ih hr,
                 Option.map_some', List.length_cons]

theorem findSpec_some_get (tid : Nat) (args : List TemplateArgument)
    (l : List SpecDecl) (i : Nat) (h : findSpec tid args l = some i) :
    ∃ d, l.get? i = some d ∧ d.templateId = tid ∧ d.args = args := by
  induction l generalizing i with
  | nil => cases h
  | cons e rest ih =>
    simp only [findSpec] at h
    by_cases hc : e.templateId = tid ∧ e.args = args
    · rw [if_pos hc] at h
      cases h
      exact ⟨e, rfl, hc.1, hc.2⟩
    · rw [if_neg hc] at h
      cases hr : findSpec tid args rest with
      | none => rw [hr] at h; cases h
      | some j =>
        rw [hr] at h
        cases h
        obtain ⟨d, hd, h1, h2⟩ := ih j hr
        exact ⟨d, by simpa using hd, h1, h2⟩

theorem instantiateAttrsForDecl_fix (d : SpecDecl)
    (h : d.attrsInstantiated = true) : instantiateAttrsForDecl d = d := by
  cases d
  simp_all [instantiateAttrsForDecl]

theorem instantiateAttrsForDecl_keys (d : SpecDecl) :
    (instantiateAttrsForDecl d).templateId = d.templateId ∧
    (instantiateAttrsForDecl d).args = d.args :=
  ⟨rfl, rfl⟩

theorem instantiateSpecializationDef_keys (d : SpecDecl) :
    (instantiateSpecializationDef d).templateId = d.templateId ∧
    (instantiateSpecializationDef d).args = d.args :=
  ⟨rfl, rfl⟩

theorem inst_cached (specs : List SpecDecl) (ct : CXXType)
    (args : List TemplateArgument) (i : Nat) (d : SpecDecl)
    (hk : ct.kind = CXXTypeKind.TemplateClass)
    (hfind : findSpec (ct.decl.getD 0) args specs = some i)
    (hget : specs.get? i = some d) (hdef : d.hasDef = true)
    (hattr : d.specKind = TemplateSpecializationKind.Undeclared →
             d.attrsInstantiated = true) :
    instantiateClassTemplate specs ct args =
      (CXXType.ofSpecialization i, specs) := by
  have hne : ¬ ct.kind ≠ CXXTypeKind.TemplateClass := by simp [hk]
  have hc2 : (specs.get? i).map SpecDecl.hasDef = some true := by
    rw [hget]
    simp [hdef]
  simp only [instantiateClassTemplate, if_neg hne, hfind]
  by_cases hc1 : (specs.get? i).map SpecDecl.specKind =
      some TemplateSpecializationKind.Undeclared
  · have hu : d.specKind = TemplateSpecializationKind.Undeclared := by
      rw [hget] at hc1
      simpa using hc1
    have hfix : modifyNth instantiateAttrsForDecl specs i = specs := by
      apply modifyNth_fix
      intro b hb
      rw [hget] at hb
      cases hb
      exact instantiateAttrsForDecl_fix d (hattr hu)
    simp only [if_pos hc1, hfix, if_pos hc2]
  · simp only [if_neg hc1, if_pos hc2]

theorem inst_post (specs : List SpecDecl) (ct : CXXType)
    (args : List TemplateArgument)
    (hk : ct.kind = CXXTypeKind.TemplateClass) :
    ∃ i, (instantiateClassTemplate specs ct args).1 = CXXType.ofSpecialization i ∧
      findSpec (ct.decl.getD 0) args
        (instantiateClassTemplate specs ct args).2 = some i ∧
      ∃ d, (instantiateClassTemplate specs ct args).2.get? i = some d ∧
        d.hasDef = true ∧
        (d.specKind = TemplateSpecializationKind.Undeclared →
         d.attrsInstantiated = true) := by
  have hne : ¬ ct.kind ≠ CXXTypeKind.TemplateClass := by simp [hk]
  cases hfs : findSpec (ct.decl.getD 0) args specs with
  | none =>
    have hnew : (specs ++ [newSpecDecl (ct.decl.getD 0) args]).get? specs.length
        = some (newSpecDecl (ct.decl.getD 0) args) :=
      get?_append_len specs _
    have hc1 : ((specs ++ [newSpecDecl (ct.decl.getD 0) args]).get?
          specs.length).map SpecDecl.specKind =
        some TemplateSpecializationKind.Undeclared := by
      rw [hnew]
      rfl
    have hc2 : ¬ (((modifyNth instantiateAttrsForDecl
        (specs ++ [newSpecDecl (ct.decl.getD 0) args])
        specs.length).get? specs.length).map SpecDecl.hasDef = some true) := by
      intro hcon
      rw [modifyNth_get?_self, hnew] at hcon
      simp [instantiateAttrsForDecl, newSpecDecl] at hcon
    have hrun : instantiateClassTemplate specs ct args =
        (CXXType.ofSpecialization specs.length,
         modifyNth instantiateSpecializationDef
           (modifyNth instantiateAttrsForDecl
             (specs ++ [newSpecDecl (ct.decl.getD 0) args]) specs.length)
           specs.length) := by
      simp only [instantiateClassTemplate, if_neg hne, hfs, if_pos hc1,
                 if_neg hc2]
    rw [hrun]
    refine ⟨specs.length, rfl, ?_, ?_⟩
    · rw [findSpec_modifyNth _ _ _ instantiateSpecializationDef_keys,
          findSpec_modifyNth _ _ _ instantiateAttrsForDecl_keys]
      exact findSpec_append_of_none _ _ _ _ hfs rfl rfl
    · rw [modifyNth_get?_self, modifyNth_get?_self, hnew]
      exact ⟨_, rfl, rfl, fun _ => rfl⟩
  | some j =>
    obtain ⟨d, hget, hd1, hd2⟩ := findSpec_some_get _ _ _ _ hfs
    by_cases hu : d.specKind = TemplateSpecializationKind.Undeclared
    · have hc1 : (specs.get? j).map SpecDecl.specKind =
          some TemplateSpecializationKind.Undeclared := by
        rw [hget]
        simp [hu]
      by_cases hdef : d.hasDef = true
      · have hc2 : ((modifyNth instantiateAttrsForDecl specs j).get? j).map
            SpecDecl.hasDef = some true := by
          rw [modifyNth_get?_self, hget]
          simpa [instantiateAttrsForDecl] using hdef
        have hrun : instantiateClassTemplate specs ct args =
            (CXXType.ofSpecialization j,
             modifyNth instantiateAttrsForDecl specs j) := by
          simp only [instantiateClassTemplate, if_neg hne, hfs, if_pos hc1,
                     if_pos hc2]
        rw [hrun]
        refine ⟨j, rfl, ?_, ?_⟩
        · rw [findSpec_modifyNth _ _ _ instantiateAttrsForDecl_keys]
          exact hfs
        · rw [modifyNth_get?_self, hget]
          exact ⟨_, rfl, hdef, fun _ => rfl⟩
      · have hc2 : ¬ (((modifyNth instantiateAttrsForDecl specs j).get? j).map
            SpecDecl.hasDef = some true) := by
          intro hcon
          rw [modifyNth_get?_self, hget] at hcon
          simp [instantiateAttrsForDecl] at hcon
          exact hdef hcon
        have hrun : instantiateClassTemplate specs ct args =
            (CXXType.ofSpecialization j,
             modifyNth instantiateSpecializationDef
               (modifyNth instantiateAttrsForDecl specs j) j) := by
          simp only [instantiateClassTemplate, if_neg hne, hfs, if_pos hc1,
                     if_neg hc2]
        rw [hrun]
        refine ⟨j, rfl, ?_, ?_⟩
        · rw [findSpec_modifyNth _ _ _ instantiateSpecializationDef_keys,
              findSpec_modifyNth _ _ _ instantiateAttrsForDecl_keys]
          exact hfs
        · rw [modifyNth_get?_self, modifyNth_get?_self, hget]
          exact ⟨_, rfl, rfl, fun _ => rfl⟩
    · have hc1 : ¬ ((specs.get? j).map SpecDecl.specKind =
          some TemplateSpecializationKind.Undeclared) := by
        intro hcon
        rw [hget] at hcon
        simp at hcon
        exact hu hcon
      by_cases hdef : d.hasDef = true
      · have hc2 : (specs.get? j).map SpecDecl.hasDef = some true := by
          rw [hget]
          simp [hdef]
        have hrun : instantiateClassTemplate specs ct args =
            (CXXType.ofSpecialization j, specs) := by
          simp only [instantiateClassTemplate, if_neg hne, hfs, if_neg hc1,
                     if_pos hc2]
        rw [hrun]
        exact ⟨j, rfl, hfs, d, hget, hdef, fun hcon => absurd hcon hu⟩
      · have hc2 : ¬ ((specs.get? j).map SpecDecl.hasDef = some true) := by
          intro hcon
          rw [hget] at hcon
          simp at hcon
          exact hdef hcon
        have hrun : instantiateClassTemplate specs ct args =
            (CXXType.ofSpecialization j,
             modifyNth instantiateSpecializationDef specs j) := by
          simp only [instantiateClassTemplate, if_neg hne, hfs, if_neg hc1,
                     if_neg hc2]
        rw [hrun]
        refine ⟨j, rfl, ?_, ?_⟩
        · rw [findSpec_modifyNth _ _ _ instantiateSpecializationDef_keys]
          exact hfs
        · rw [modifyNth_get?_self, hget]
          refine ⟨_, rfl, rfl, fun hcon => ?_⟩
          simp [instantiateSpecializationDef] at hcon

/-- Claim C3: two calls to instantiateClassTemplate with the same
(canonicalized) argument list within one session return identical handles
referring to the identity-equal underlying specialization declaration, and
the second call finds the cached specialization and creates no new one —
the session state is unchanged. -/
theorem instantiateClassTemplate_idempotent (specs : List SpecDecl)
    (ct : CXXType) (args : List TemplateArgument)
    (hk : ct.kind = CXXTypeKind.TemplateClass) :
    (instantiateClassTemplate (instantiateClassTemplate specs ct args).2
        ct args).1 = (instantiateClassTemplate specs ct args).1 ∧
    (instantiateClassTemplate (instantiateClassTemplate specs ct args).2
        ct args).2 = (instantiateClassTemplate specs ct args).2 := by
  obtain ⟨i, h1, hfind, d, hget, hdef, hattr⟩ := inst_post specs ct args hk
  have h2 := inst_cached _ ct args i d hk hfind hget hdef hattr
  rw [h2, h1]
  exact ⟨rfl, rfl⟩

/-- Claim C3 witness: two instantiations of the sample class template with
the same integral argument list, starting from the empty session. -/
theorem instantiateClassTemplate_idempotent_witness :
    tTemplate.kind = CXXTypeKind.TemplateClass ∧
    ((instantiateClassTemplate (instantiateClassTemplate [] tTemplate args0).2
        tTemplate args0).1 = (instantiateClassTemplate [] tTemplate args0).1 ∧
     (instantiateClassTemplate (instantiateClassTemplate [] tTemplate args0).2
        tTemplate args0).2 = (instantiateClassTemplate [] tTemplate args0).2) :=
  ⟨rfl, instantiateClassTemplate_idempotent [] tTemplate args0 rfl⟩
